import Mathlib

/-!
Verification of the asynchronous document-processing status reconciliation
subsystem of the google-notebook frontend.

The definitions below are shallow embeddings of the TypeScript source:
  * status mapping      — src/src/hooks/useDocumentQueries.ts, src/unnamed/part_003
  * stage progress      — src/src/utils/documentProcessingUtils.ts, src/unnamed/part_003
  * job status poller   — src/src/hooks/useDocumentQueries.ts (pollAsyncJobStatus)
  * websocket channel   — src/unnamed/part_003 (DocumentService.createProgressWebSocket)
  * upload orchestrator — src/src/components/pdf/PDFUploaderContainer.tsx

Side effects (console logging, toast calls, cache invalidation requests,
progress callbacks) are modelled as explicit output lists; the browser event
loop is modelled as an environment-chosen sequence of events folded over a
deterministic step function.
-/

/-- The closed UI status set, FRONTEND_STATUSES in
src/src/hooks/useDocumentQueries.ts lines 30-35. -/
inductive FrontendStatus
| uploading
| processing
| ready
| error
deriving DecidableEq

/-- ASCII lower-casing of one character, as JS String.prototype.toLowerCase
acts on the ASCII range used by the backend status vocabulary. -/
def charToLower (c : Char) : Char :=
  if 65 ≤ c.toNat ∧ c.toNat ≤ 90 then Char.ofNat (c.toNat + 32) else c

/-- Shallow embedding of JS String.prototype.toLowerCase (ASCII range). -/
def jsToLowerCase (s : String) : String :=
  ⟨s.data.map charToLower⟩

/-- BACKEND_STATUSES from src/src/hooks/useDocumentQueries.ts lines 18-28:
the backend status values known to the hook layer. -/
def BACKEND_STATUSES : List String :=
  ["uploaded", "pending", "processing", "completed", "error", "processed",
   "chunking", "vectorizing", "indexing"]

/-- mapApiStatusToUIStatus, src/src/hooks/useDocumentQueries.ts lines 195-216.
The switch statement is embedded as an if-chain (each group of fall-through
cases becomes a disjunction); the returned pair carries the mapped status and
the list of console.warn messages the call emits (the default branch warns,
it does not throw). -/
def mapApiStatusToUIStatus (status : String) : FrontendStatus × List String :=
  if status = "uploaded" ∨ status = "pending" then
    (FrontendStatus.uploading, [])
  else if status = "processing" ∨ status = "chunking" ∨
      status = "vectorizing" ∨ status = "indexing" then
    (FrontendStatus.processing, [])
  else if status = "completed" ∨ status = "processed" then
    (FrontendStatus.ready, [])
  else if status = "error" then
    (FrontendStatus.error, [])
  else
    (FrontendStatus.error, ["Unhandled document status: " ++ status])

/-- The inline backend-to-frontend status switch inside
DocumentService.getDocumentStatus, src/unnamed/part_003 lines 380-396.
In the source, the cases are: 'processed' and 'completed' to 'ready';
'error' to 'error'; 'processing' to 'processing'; 'uploaded', 'pending' and
the default case all fall through to 'processing'. -/
def docServiceMapStatus (status : String) : FrontendStatus :=
  if status = "processed" ∨ status = "completed" then FrontendStatus.ready
  else if status = "error" then FrontendStatus.error
  else if status = "processing" then FrontendStatus.processing
  else FrontendStatus.processing

/-- Modelled from the spec: the Status Mapper contract of spec section 4.1
(authoritative mapping table, lower-casing applied before comparison,
fail-closed default). Declared only to compare the specified table with the
mappers found in the source; it is not part of the source embedding. -/
def specMapStatus (raw : String) : FrontendStatus :=
  let s := jsToLowerCase raw
  if s = "uploaded" ∨ s = "pending" then FrontendStatus.uploading
  else if s = "processing" ∨ s = "chunking" ∨ s = "vectorizing" ∨
      s = "indexing" ∨ s = "parsing" then FrontendStatus.processing
  else if s = "processed" ∨ s = "completed" ∨ s = "ready" ∨ s = "complete" then
    FrontendStatus.ready
  else FrontendStatus.error

/-- C1 counterexample: the claim states that every status mapper in the
program maps a string outside the known backend vocabulary to 'error'
(fail-closed), but the mapping inside DocumentService.getDocumentStatus
(src/unnamed/part_003 lines 380-396) sends the unknown string "foobar" to
'processing', a still-in-progress value, through its default case. -/
theorem C1_counterexample :
    "foobar" ∉ BACKEND_STATUSES ∧
    docServiceMapStatus "foobar" = FrontendStatus.processing ∧
    FrontendStatus.processing ≠ FrontendStatus.error := by
  decide

/-- C1 (amended): the hook-layer mapper mapApiStatusToUIStatus is fail-closed —
every string outside the known backend statuses maps to 'error' and emits a
diagnostic warning rather than throwing — and both mappers return a value for
every input string; however the status mapping inside
DocumentService.getDocumentStatus maps such strings to 'processing'. -/
theorem C1_amended_unknown_status_mapping (s : String)
    (h : s ∉ BACKEND_STATUSES) :
    (mapApiStatusToUIStatus s).1 = FrontendStatus.error ∧
    (mapApiStatusToUIStatus s).2 ≠ [] ∧
    docServiceMapStatus s = FrontendStatus.processing := by
  simp only [BACKEND_STATUSES, List.mem_cons, List.not_mem_nil, or_false,
    not_or] at h
  obtain ⟨h1, h2, h3, h4, h5, h6, h7, h8, h9⟩ := h
  refine ⟨?_, ?_, ?_⟩ <;>
    simp [mapApiStatusToUIStatus, docServiceMapStatus,
      h1, h2, h3, h4, h5, h6, h7, h8, h9]

/-- C1 witness: the amended theorem applied at the concrete input "failed"
(a string the backend can report that is outside BACKEND_STATUSES). -/
theorem C1_unknown_status_witness :
    "failed" ∉ BACKEND_STATUSES ∧
    ((mapApiStatusToUIStatus "failed").1 = FrontendStatus.error ∧
      (mapApiStatusToUIStatus "failed").2 ≠ [] ∧
      docServiceMapStatus "failed" = FrontendStatus.processing) :=
  ⟨by decide, C1_amended_unknown_status_mapping "failed" (by decide)⟩

/-- C2 counterexample: the claim states the mapper lower-cases its input
before comparison, so that mapStatus of "INDEXING" is 'processing' (as the
spec table specMapStatus indeed prescribes); but mapApiStatusToUIStatus
performs no case normalization and maps "INDEXING" to 'error'. -/
theorem C2_counterexample :
    (mapApiStatusToUIStatus "INDEXING").1 = FrontendStatus.error ∧
    specMapStatus "INDEXING" = FrontendStatus.processing ∧
    FrontendStatus.error ≠ FrontendStatus.processing := by
  decide

/-- C2 (amended): no case normalization is applied — the mapper matches exact
lower-case literals: 'uploaded' and 'pending' map to 'uploading';
'processing', 'chunking', 'vectorizing' and 'indexing' map to 'processing';
'completed' and 'processed' map to 'ready'; 'error' maps to 'error'; every
other string — including 'INDEXING', 'parsing', 'ready' and 'complete' —
maps to 'error' with a logged warning. -/
theorem C2_amended_exact_lowercase_table :
    (mapApiStatusToUIStatus "uploaded").1 = FrontendStatus.uploading ∧
    (mapApiStatusToUIStatus "pending").1 = FrontendStatus.uploading ∧
    (mapApiStatusToUIStatus "processing").1 = FrontendStatus.processing ∧
    (mapApiStatusToUIStatus "chunking").1 = FrontendStatus.processing ∧
    (mapApiStatusToUIStatus "vectorizing").1 = FrontendStatus.processing ∧
    (mapApiStatusToUIStatus "indexing").1 = FrontendStatus.processing ∧
    (mapApiStatusToUIStatus "completed").1 = FrontendStatus.ready ∧
    (mapApiStatusToUIStatus "processed").1 = FrontendStatus.ready ∧
    (mapApiStatusToUIStatus "error").1 = FrontendStatus.error ∧
    (mapApiStatusToUIStatus "INDEXING").1 = FrontendStatus.error ∧
    (mapApiStatusToUIStatus "INDEXING").2 ≠ [] ∧
    (mapApiStatusToUIStatus "parsing").1 = FrontendStatus.error ∧
    (mapApiStatusToUIStatus "ready").1 = FrontendStatus.error ∧
    (mapApiStatusToUIStatus "complete").1 = FrontendStatus.error := by
  decide

/-- The stageProgress record shared verbatim by getProcessingProgress
(src/src/utils/documentProcessingUtils.ts lines 70-87) and
DocumentService.calculateProgressPercentage (src/unnamed/part_003
lines 421-441), as an association list in source order. -/
def stageProgressTable : List (String × Nat) :=
  [("upload_complete", 10), ("uploaded", 10), ("text_extraction", 20),
   ("parsing_started", 30), ("chunking", 50), ("vectorization", 70),
   ("indexing", 85), ("complete", 100), ("processed", 100),
   ("completed", 100), ("parsing_failed", 0), ("error", 0)]

/-- Key lookup in an association list (JS object property access). -/
def tableLookup : List (String × Nat) → String → Option Nat
  | [], _ => none
  | (k, v) :: rest, key => if key = k then some v else tableLookup rest key

/-- getProcessingProgress, src/src/utils/documentProcessingUtils.ts
lines 70-87: stageProgress[stage.toLowerCase()] with 0 for a missing key
(the two keys whose value is 0 also give 0 through the JS or-default). -/
def getProcessingProgress (stage : String) : Nat :=
  (tableLookup stageProgressTable (jsToLowerCase stage)).getD 0

/-- DocumentService.calculateProgressPercentage, src/unnamed/part_003
lines 421-441: a falsy argument (undefined or the empty string) returns 0,
otherwise the same table lookup as getProcessingProgress. -/
def calculateProgressPercentage (processing_stage : Option String) : Nat :=
  match processing_stage with
  | none => 0
  | some s =>
      if s = "" then 0
      else (tableLookup stageProgressTable (jsToLowerCase s)).getD 0

theorem tableLookup_mem_values (l : List (String × Nat)) (k : String)
    (v : Nat) (h : tableLookup l k = some v) : v ∈ l.map Prod.snd := by
  induction l with
  | nil => simp [tableLookup] at h
  | cons p rest ih =>
      obtain ⟨pk, pv⟩ := p
      by_cases hk : k = pk
      · simp [tableLookup, hk] at h
        simp [h]
      · simp [tableLookup, hk] at h
        simpa using Or.inr (ih h)

/-- C10: for every stage string the computed progress lies in
the set of table values plus the default 0 (all within 0-100); the lookup
lower-cases its input first (so "INDEXING" hits the 'indexing' entry); the
stages 'parsing_failed' and 'error' yield 0; and any stage whose lower-casing
is not a table key yields 0. -/
theorem C10_progress_range_and_default :
    (∀ stage : String,
      getProcessingProgress stage ∈ ([0, 10, 20, 30, 50, 70, 85, 100] : List Nat)) ∧
    getProcessingProgress "INDEXING" = 85 ∧
    getProcessingProgress "indexing" = 85 ∧
    getProcessingProgress "parsing_failed" = 0 ∧
    getProcessingProgress "error" = 0 ∧
    (∀ stage : String,
      tableLookup stageProgressTable (jsToLowerCase stage) = none →
        getProcessingProgress stage = 0) ∧
    (∀ stage : Option String,
      calculateProgressPercentage stage ∈ ([0, 10, 20, 30, 50, 70, 85, 100] : List Nat)) := by
  have hrange : ∀ s : String,
      (tableLookup stageProgressTable s).getD 0 ∈
        ([0, 10, 20, 30, 50, 70, 85, 100] : List Nat) := by
    intro s
    cases h : tableLookup stageProgressTable s with
    | none => simp
    | some v =>
        have hv := tableLookup_mem_values _ _ _ h
        simp only [stageProgressTable, List.map_cons, List.map_nil,
          List.mem_cons, List.not_mem_nil, or_false] at hv
        rcases hv with h | h | h | h | h | h | h | h | h | h | h | h <;>
          simp [h]
  refine ⟨fun stage => hrange _, by decide, by decide, by decide, by decide,
    ?_, ?_⟩
  · intro stage h
    simp [getProcessingProgress, h]
  · intro stage
    match stage with
    | none => simp [calculateProgressPercentage]
    | some s =>
        by_cases hs : s = ""
        · simp [calculateProgressPercentage, hs]
        · simpa [calculateProgressPercentage, hs] using hrange (jsToLowerCase s)

/-- C10 witness: the range-and-default theorem applied at concrete inputs;
"vectorizing" is a backend status whose lower-casing is not a stage key. -/
theorem C10_progress_witness :
    getProcessingProgress "chunking" ∈ ([0, 10, 20, 30, 50, 70, 85, 100] : List Nat) ∧
    (tableLookup stageProgressTable (jsToLowerCase "vectorizing") = none ∧
      getProcessingProgress "vectorizing" = 0) :=
  ⟨C10_progress_range_and_default.1 "chunking",
   by decide, C10_progress_range_and_default.2.2.2.2.2.1 "vectorizing" (by decide)⟩

/-- A value thrown by the HTTP client: either an Error object carrying a
message, or any other thrown value. -/
inductive JsThrown
| errorObj (message : String)
| otherValue
deriving DecidableEq

/-- The expression `error instanceof Error ? error.message : 'Unknown error'`
from the catch branch of DocumentService.getDocumentStatus
(src/unnamed/part_003 lines 410-417). -/
def thrownMessage : JsThrown → String
  | JsThrown.errorObj m => m
  | JsThrown.otherValue => "Unknown error"

/-- The BackendDocumentResponse shape read by DocumentService.getDocumentStatus
(src/unnamed/part_003 lines 355-369). The status field is a string at runtime;
metadata.chunk_count is flattened to an optional field. -/
structure BackendDocumentResponse where
  status : String
  processing_stage : Option String
  page_count : Option Nat
  chunk_count : Option Nat
  processing_error : Option String
deriving DecidableEq

/-- The DocumentStatus shape returned by DocumentService.getDocumentStatus
(src/unnamed/part_003 lines 14-22). -/
structure DocumentStatus where
  status : FrontendStatus
  processing_stage : Option String
  page_count : Option Nat
  chunk_count : Option Nat
  processing_time_ms : Option Nat
  progress_percentage : Nat
  error_message : Option String
deriving DecidableEq

/-- The JS expression `s || d` for an optional string: undefined, null and
the empty string are falsy and select the default. -/
def jsOrDefault (s : Option String) (d : String) : String :=
  match s with
  | none => d
  | some v => if v = "" then d else v

/-- DocumentService.getDocumentStatus, src/unnamed/part_003 lines 352-418.
The HTTP request's outcome is the argument: an Except.error models a throw
from apiClient.get, an Except.ok models the parsed response body. The source
wraps the whole body in try/catch, so the function is total: the catch branch
(lines 410-417) returns a DocumentStatus with status 'error', progress 0 and
the thrown error's message instead of rethrowing. -/
def getDocumentStatus
    (httpResult : Except JsThrown BackendDocumentResponse) : DocumentStatus :=
  match httpResult with
  | Except.error e =>
      { status := FrontendStatus.error
        processing_stage := none
        page_count := none
        chunk_count := none
        processing_time_ms := none
        progress_percentage := 0
        error_message := some (thrownMessage e) }
  | Except.ok response =>
      let progressPercentage :=
        calculateProgressPercentage
          (some (jsOrDefault response.processing_stage "uploaded"))
      let frontendStatus := docServiceMapStatus response.status
      { status := frontendStatus
        processing_stage := some (jsOrDefault response.processing_stage "uploaded")
        page_count := response.page_count
        chunk_count := response.chunk_count
        processing_time_ms := none
        progress_percentage := progressPercentage
        error_message := response.processing_error }

/-- C9: DocumentService.getDocumentStatus never rejects — whenever the
underlying HTTP request throws, it resolves with a DocumentStatus whose
status is 'error', whose progress_percentage is 0 and whose error_message
carries the thrown error's message (or 'Unknown error' for a non-Error
throw), so a polling caller always receives a value. -/
theorem C9_getDocumentStatus_catch_branch (e : JsThrown) :
    (getDocumentStatus (Except.error e)).status = FrontendStatus.error ∧
    (getDocumentStatus (Except.error e)).progress_percentage = 0 ∧
    (getDocumentStatus (Except.error e)).error_message =
      some (thrownMessage e) ∧
    ∀ m : String,
      (getDocumentStatus (Except.error (JsThrown.errorObj m))).error_message =
        some m := by
  refine ⟨rfl, rfl, rfl, fun m => rfl⟩

/-- One resolved poll of the async job-status endpoint: either a parsed
AsyncProcessingStatus restricted to the fields the poll loop reads, or a
request failure (the catch branch). -/
inductive JobPollResult
| ok (status : String) (error_message : Option String)
| reqError
deriving DecidableEq

/-- The four ways the poll loop in useUploadDocumentMutation can end. -/
inductive TerminalKind
| completedKind
| failedKind
| timedOutKind
| monitorFailedKind
deriving DecidableEq

/-- The observable effects of one run of the poll loop: how many poll
requests were resolved, which cache keys were invalidated (in order), the
document-status values written into the cache, the toasts shown
(flag true for toast.error), and how the loop ended (none while the next
response is still pending). -/
structure PollRun where
  requests : Nat
  cacheInvalidations : List String
  docStatusWrites : List FrontendStatus
  toasts : List (Bool × String)
  outcome : Option TerminalKind
deriving DecidableEq

/-- pollAsyncJobStatus from useUploadDocumentMutation,
src/src/hooks/useDocumentQueries.ts lines 289-377. The argument list holds
the successive results of the issued status requests; attempts is the counter
incremented at the top of poll(). Branch order follows the source: completed,
then failed, then the maxAttempts timeout check, then re-arm the 2000 ms
setTimeout; a thrown request error is swallowed and retried unless the
attempt bound has been reached. -/
def pollAsyncJobStatus (docId : String) (maxAttempts : Nat) :
    List JobPollResult → Nat → PollRun
  | [], _ =>
      { requests := 0, cacheInvalidations := [], docStatusWrites := [],
        toasts := [], outcome := none }
  | JobPollResult.ok s m :: rest, attempts =>
      if s = "completed" then
        { requests := 1
          cacheInvalidations := ["documents", "document:" ++ docId]
          docStatusWrites := [FrontendStatus.ready]
          toasts := [(false, "Document processing completed successfully!")]
          outcome := some TerminalKind.completedKind }
      else if s = "failed" then
        { requests := 1
          cacheInvalidations := []
          docStatusWrites := [FrontendStatus.error]
          toasts := [(true, "Document processing failed: " ++
            m.getD "Unknown error")]
          outcome := some TerminalKind.failedKind }
      else if maxAttempts ≤ attempts + 1 then
        { requests := 1
          cacheInvalidations := []
          docStatusWrites := [FrontendStatus.error]
          toasts := [(true, "Document processing timed out - please try again")]
          outcome := some TerminalKind.timedOutKind }
      else
        let r := pollAsyncJobStatus docId maxAttempts rest (attempts + 1)
        { requests := r.requests + 1
          cacheInvalidations := r.cacheInvalidations
          docStatusWrites := r.docStatusWrites
          toasts := r.toasts
          outcome := r.outcome }
  | JobPollResult.reqError :: rest, attempts =>
      if maxAttempts ≤ attempts + 1 then
        { requests := 1
          cacheInvalidations := []
          docStatusWrites := [FrontendStatus.error]
          toasts := [(true, "Failed to monitor document processing")]
          outcome := some TerminalKind.monitorFailedKind }
      else
        let r := pollAsyncJobStatus docId maxAttempts rest (attempts + 1)
        { requests := r.requests + 1
          cacheInvalidations := r.cacheInvalidations
          docStatusWrites := r.docStatusWrites
          toasts := r.toasts
          outcome := r.outcome }

/-- An attempt after which the loop keeps going: a resolved poll that reports
neither terminal backend status, or a thrown request error (which the catch
branch swallows and retries). In both cases no terminal backend status has
been observed. -/
def isNonTerminalResult (r : JobPollResult) : Bool :=
  match r with
  | JobPollResult.ok s _ => !(s == "completed") && !(s == "failed")
  | JobPollResult.reqError => true

/-- The terminal kind the loop reports when the attempt that hits the bound
is r: the timeout branch for a resolved non-terminal status, the
monitor-failure catch branch for a thrown request. -/
def boundTerminalKind (r : JobPollResult) : TerminalKind :=
  match r with
  | JobPollResult.ok _ _ => TerminalKind.timedOutKind
  | JobPollResult.reqError => TerminalKind.monitorFailedKind

/-- The toast text of the bound-hitting branch selected by boundTerminalKind. -/
def boundToast (r : JobPollResult) : String :=
  match r with
  | JobPollResult.ok _ _ => "Document processing timed out - please try again"
  | JobPollResult.reqError => "Failed to monitor document processing"

/-- The timed-out toast text can never coincide with a failed-branch toast
text, whatever backend error message the failed branch interpolates. -/
theorem failed_toast_ne_timeout_toast (m : String) :
    "Document processing failed: " ++ m ≠
      "Document processing timed out - please try again" := by
  intro h
  have hd : "Document processing failed: ".data ++ m.data =
      "Document processing timed out - please try again".data := by
    have h2 := congrArg String.data h
    rwa [String.data_append] at h2
  have h28 : ("Document processing failed: ".data).length = 28 := by decide
  have ht : "Document processing failed: ".data =
      ("Document processing timed out - please try again".data).take 28 := by
    rw [← hd, List.take_left' h28]
  exact absurd ht (by decide)

/-- The monitor-failure toast text of the catch branch likewise differs from
every failed-branch toast text. -/
theorem failed_toast_ne_monitor_toast (m : String) :
    "Document processing failed: " ++ m ≠
      "Failed to monitor document processing" := by
  intro h
  have hd : "Document processing failed: ".data ++ m.data =
      "Failed to monitor document processing".data := by
    have h2 := congrArg String.data h
    rwa [String.data_append] at h2
  have h28 : ("Document processing failed: ".data).length = 28 := by decide
  have ht : "Document processing failed: ".data =
      ("Failed to monitor document processing".data).take 28 := by
    rw [← hd, List.take_left' h28]
  exact absurd ht (by decide)

theorem pollAsync_bound_general (docId : String) (M : Nat)
    (rs : List JobPollResult) (a : Nat) (rlast : JobPollResult) (ha : a < M)
    (hnt : ∀ r ∈ rs.take (M - a), isNonTerminalResult r = true)
    (hlast : rs[M - a - 1]? = some rlast) :
    pollAsyncJobStatus docId M rs a =
      { requests := M - a
        cacheInvalidations := []
        docStatusWrites := [FrontendStatus.error]
        toasts := [(true, boundToast rlast)]
        outcome := some (boundTerminalKind rlast) } := by
  induction rs generalizing a with
  | nil =>
      exfalso
      simp at hlast
  | cons r rest ih =>
      have hMa : M - a = (M - a - 1) + 1 := by omega
      have hr : isNonTerminalResult r = true := by
        apply hnt
        rw [hMa, List.take_succ_cons]
        exact List.mem_cons_self _ _
      by_cases hb : M ≤ a + 1
      · have h1 : M - a = 1 := by omega
        have h0 : M - a - 1 = 0 := by omega
        rw [h0] at hlast
        have hE : r = rlast := by simpa using hlast
        subst hE
        cases r with
        | ok s m =>
            simp only [isNonTerminalResult, Bool.and_eq_true, Bool.not_eq_true',
              beq_eq_false_iff_ne, ne_eq] at hr
            obtain ⟨hs1, hs2⟩ := hr
            simp only [pollAsyncJobStatus, if_neg hs1, if_neg hs2, if_pos hb,
              h1, boundToast, boundTerminalKind]
        | reqError =>
            simp only [pollAsyncJobStatus, if_pos hb, h1, boundToast,
              boundTerminalKind]
      · have h2 : M - a - 1 = (M - (a + 1) - 1) + 1 := by omega
        rw [h2, List.getElem?_cons_succ] at hlast
        have hnt' : ∀ r' ∈ rest.take (M - (a + 1)),
            isNonTerminalResult r' = true := by
          intro r' hr'
          apply hnt
          have h3 : M - (a + 1) = M - a - 1 := by omega
          rw [hMa, List.take_succ_cons]
          exact List.mem_cons_of_mem _ (by rw [← h3]; exact hr')
        have hrec := ih (a + 1) (by omega) hnt' hlast
        have hreq : M - a = (M - (a + 1)) + 1 := by omega
        cases r with
        | ok s m =>
            simp only [isNonTerminalResult, Bool.and_eq_true, Bool.not_eq_true',
              beq_eq_false_iff_ne, ne_eq] at hr
            obtain ⟨hs1, hs2⟩ := hr
            simp only [pollAsyncJobStatus, if_neg hs1, if_neg hs2, if_neg hb, hrec]
            simp [hreq]
        | reqError =>
            simp only [pollAsyncJobStatus, if_neg hb, hrec]
            simp [hreq]

/-- A run that reaches the 150-attempt bound without ever observing a
terminal backend status, whose bound-hitting attempt (the 150th) throws
instead of resolving. -/
def monitorBoundRun : List JobPollResult :=
  List.replicate 149 (JobPollResult.ok "processing" none) ++
    [JobPollResult.reqError]

set_option maxRecDepth 8000 in
/-- C5 counterexample: the claim states that every polling run reaching the
150-attempt bound without observing a terminal backend status reports the
timed-out outcome; but when the bound-hitting attempt throws (a swallowed
request error, in scope because polling continues across request errors),
the catch branch reports 'Failed to monitor document processing' — a
monitor-failure outcome distinct from the timed-out one. -/
theorem C5_counterexample :
    monitorBoundRun.all isNonTerminalResult = true ∧
    (pollAsyncJobStatus "doc1" 150 monitorBoundRun 0).requests = 150 ∧
    (pollAsyncJobStatus "doc1" 150 monitorBoundRun 0).outcome =
      some TerminalKind.monitorFailedKind ∧
    some TerminalKind.monitorFailedKind ≠ some TerminalKind.timedOutKind ∧
    (pollAsyncJobStatus "doc1" 150 monitorBoundRun 0).toasts =
      [(true, "Failed to monitor document processing")] ∧
    "Failed to monitor document processing" ≠
      "Document processing timed out - please try again" := by
  decide

/-- C5 (amended): every polling run of pollAsyncJobStatus whose first 150
attempts observe no terminal backend status stops at the bound (exactly 150
requests, no invalidation, an 'error' status write) and reports a terminal
outcome determined by the bound-hitting attempt — the timed-out outcome with
toast 'Document processing timed out - please try again' when that attempt
resolved with a non-terminal status, the monitor-failure outcome with toast
'Failed to monitor document processing' when it threw — and in either case
the toast message differs from every failed-branch toast message. -/
theorem C5_bound_outcome (docId : String) (rs : List JobPollResult)
    (rlast : JobPollResult)
    (hnt : ∀ r ∈ rs.take 150, isNonTerminalResult r = true)
    (hlast : rs[149]? = some rlast) :
    pollAsyncJobStatus docId 150 rs 0 =
      { requests := 150
        cacheInvalidations := []
        docStatusWrites := [FrontendStatus.error]
        toasts := [(true, boundToast rlast)]
        outcome := some (boundTerminalKind rlast) } ∧
    ∀ m : String, "Document processing failed: " ++ m ≠ boundToast rlast := by
  constructor
  · exact pollAsync_bound_general docId 150 rs 0 rlast (by omega) hnt hlast
  · intro m
    cases rlast with
    | ok s mm => simpa [boundToast] using failed_toast_ne_timeout_toast m
    | reqError => simpa [boundToast] using failed_toast_ne_monitor_toast m

set_option maxRecDepth 8000 in
/-- C5 witness: the amended theorem applied to a run of 150 resolved
'processing' responses — the bound is reached and the timed-out branch
(boundToast of a resolved attempt) is reported. -/
theorem C5_bound_outcome_witness :
    (∀ r ∈ (List.replicate 150 (JobPollResult.ok "processing" none)).take 150,
      isNonTerminalResult r = true) ∧
    (List.replicate 150 (JobPollResult.ok "processing" none))[149]? =
      some (JobPollResult.ok "processing" none) ∧
    (pollAsyncJobStatus "doc1" 150
        (List.replicate 150 (JobPollResult.ok "processing" none)) 0 =
      { requests := 150
        cacheInvalidations := []
        docStatusWrites := [FrontendStatus.error]
        toasts := [(true, boundToast (JobPollResult.ok "processing" none))]
        outcome :=
          some (boundTerminalKind (JobPollResult.ok "processing" none)) } ∧
    ∀ m : String,
      "Document processing failed: " ++ m ≠
        boundToast (JobPollResult.ok "processing" none)) := by
  have hnt : ∀ r ∈ (List.replicate 150
      (JobPollResult.ok "processing" none)).take 150,
      isNonTerminalResult r = true := by
    intro r hr
    rw [List.eq_of_mem_replicate (List.take_subset _ _ hr)]
    decide
  have hlast : (List.replicate 150 (JobPollResult.ok "processing" none))[149]? =
      some (JobPollResult.ok "processing" none) := by decide
  exact ⟨hnt, hlast,
    C5_bound_outcome "doc1"
      (List.replicate 150 (JobPollResult.ok "processing" none))
      (JobPollResult.ok "processing" none) hnt hlast⟩

/-- C6 counterexample: the claim states that every terminal transition
(completed, failed, or timed out) requests invalidation of the document-list
entry and the document's detail entry exactly once; but a run of
pollAsyncJobStatus that ends in the failed branch requests no cache
invalidation at all. -/
theorem C6_counterexample :
    (pollAsyncJobStatus "doc1" 150 [JobPollResult.ok "failed" (some "boom")] 0).outcome =
      some TerminalKind.failedKind ∧
    (pollAsyncJobStatus "doc1" 150 [JobPollResult.ok "failed" (some "boom")] 0).cacheInvalidations =
      [] ∧
    ([] : List String) ≠ ["documents", "document:" ++ "doc1"] := by
  decide

/-- C6 (amended): only a completed terminal transition triggers cache
reconciliation — the poll loop then invalidates the document-list entry and
that document's detail entry exactly once each (in that order) and writes the
finalized 'ready' status; on a failed or timed-out terminal transition it
requests no invalidation and instead writes status 'error' directly into the
document's cached entry. -/
theorem C6_invalidation_only_on_completed (docId : String) (M : Nat)
    (rs : List JobPollResult) (a : Nat) :
    ((pollAsyncJobStatus docId M rs a).outcome =
        some TerminalKind.completedKind →
      (pollAsyncJobStatus docId M rs a).cacheInvalidations =
        ["documents", "document:" ++ docId] ∧
      (pollAsyncJobStatus docId M rs a).docStatusWrites =
        [FrontendStatus.ready]) ∧
    ((pollAsyncJobStatus docId M rs a).outcome = some TerminalKind.failedKind ∨
      (pollAsyncJobStatus docId M rs a).outcome =
        some TerminalKind.timedOutKind →
      (pollAsyncJobStatus docId M rs a).cacheInvalidations = [] ∧
      (pollAsyncJobStatus docId M rs a).docStatusWrites =
        [FrontendStatus.error]) := by
  induction rs generalizing a with
  | nil =>
      constructor <;> intro h <;> simp [pollAsyncJobStatus] at h
  | cons r rest ih =>
      cases r with
      | reqError =>
          by_cases hb : M ≤ a + 1
          · constructor <;> intro h <;>
              simp [pollAsyncJobStatus, hb] at h
          · simpa [pollAsyncJobStatus, hb] using ih (a + 1)
      | ok s m =>
          by_cases h1 : s = "completed"
          · constructor <;> intro h <;>
              simp [pollAsyncJobStatus, h1] at h ⊢
          · by_cases h2 : s = "failed"
            · constructor <;> intro h <;>
                simp [pollAsyncJobStatus, h1, h2] at h ⊢
            · by_cases hb : M ≤ a + 1
              · constructor <;> intro h <;>
                  simp [pollAsyncJobStatus, h1, h2, hb] at h ⊢
              · simpa [pollAsyncJobStatus, h1, h2, hb] using ih (a + 1)

/-- C6 witness: the amended theorem applied to a run whose third response is
terminal 'completed' — both cache keys are invalidated once each and the
status write is 'ready'. -/
theorem C6_invalidation_witness :
    (pollAsyncJobStatus "doc1" 150
        [JobPollResult.ok "processing" none, JobPollResult.reqError,
         JobPollResult.ok "completed" none] 0).outcome =
      some TerminalKind.completedKind ∧
    ((pollAsyncJobStatus "doc1" 150
        [JobPollResult.ok "processing" none, JobPollResult.reqError,
         JobPollResult.ok "completed" none] 0).cacheInvalidations =
      ["documents", "document:" ++ "doc1"] ∧
    (pollAsyncJobStatus "doc1" 150
        [JobPollResult.ok "processing" none, JobPollResult.reqError,
         JobPollResult.ok "completed" none] 0).docStatusWrites =
      [FrontendStatus.ready]) :=
  ⟨by decide,
   (C6_invalidation_only_on_completed "doc1" 150
      [JobPollResult.ok "processing" none, JobPollResult.reqError,
       JobPollResult.ok "completed" none] 0).1 (by decide)⟩

/-- In-place update of the element at an index (List.set with a function). -/
def listModify {α : Type} (f : α → α) : Nat → List α → List α
  | _, [] => []
  | 0, a :: l => f a :: l
  | n + 1, a :: l => a :: listModify f n l

/-- The UploadProgress value object passed to the onUploadProgress callback
(src/src/types): percentage, status string, optional message. -/
structure UploadProgressUpdate where
  percentage : Nat
  status : String
  message : Option String
deriving DecidableEq

/-- One WebSocket created by createProgressWebSocket for a job. The docId is
the uploadedDocumentId captured by the effect closure (the onError fallback
passes it to startStatusPolling). closedLocally records that cleanup() called
close(); closeEventFired records that the transport close event has been
delivered to the onclose handler (it fires at most once, and it fires for
locally closed sockets too, with an environment-chosen close code). -/
structure ChannelState where
  jobId : String
  docId : String
  closedLocally : Bool
  closeEventFired : Bool
deriving DecidableEq

/-- One interval registered by startStatusPolling, with the job and document
identifiers captured by its closure. cleared records clearInterval. -/
structure TimerState where
  jobId : String
  docId : String
  cleared : Bool
deriving DecidableEq

/-- One in-flight startAsyncProcessing request issued by the effect, with the
uploadedDocumentId captured when the effect ran. -/
structure StartRequest where
  docId : String
  resolved : Bool
deriving DecidableEq

/-- One getAsyncProcessingStatus request issued by a poll interval tick. -/
structure PollRequest where
  jobId : String
  docId : String
  resolved : Bool
deriving DecidableEq

/-- The fields of an AsyncProcessingStatus response that the polling callback
reads: status, error_message, and the optional progress snapshot reduced to
(completion_percentage, current_stage, processed_pages, total_pages). -/
structure AsyncStatusPayload where
  status : String
  error_message : Option String
  progress : Option (Nat × String × Nat × Nat)
deriving DecidableEq

/-- Resolution of a poll request: a response payload or a thrown error. -/
inductive PollReqResult
| ok (payload : AsyncStatusPayload)
| err
deriving DecidableEq

/-- The mutable state of usePDFUploaderContainer
(src/src/components/pdf/PDFUploaderContainer.tsx lines 15-161) together with
the side-effect log. uploadedDocumentId and currentJobId are the two React
state slots; wsRef and pollIntervalRef are the two refs (indices into the
channels and timers registries, which also record leaked instances whose ref
was overwritten). pollRequests lists every status request the poll intervals
issued, in order. progressUpdates, successToasts and errorToasts log the
onUploadProgress and toast calls. cacheInvalidations logs query-cache
invalidation requests; the container source never issues any. -/
structure OrchState where
  uploadedDocumentId : Option String
  currentJobId : Option String
  wsRef : Option Nat
  pollIntervalRef : Option Nat
  channels : List ChannelState
  timers : List TimerState
  startRequests : List StartRequest
  pollRequests : List PollRequest
  progressUpdates : List UploadProgressUpdate
  successToasts : List String
  errorToasts : List String
  cacheInvalidations : List String
deriving DecidableEq

def initialOrchState : OrchState :=
  { uploadedDocumentId := none, currentJobId := none, wsRef := none,
    pollIntervalRef := none, channels := [], timers := [],
    startRequests := [], pollRequests := [], progressUpdates := [],
    successToasts := [], errorToasts := [], cacheInvalidations := [] }

/-- cleanup, PDFUploaderContainer.tsx lines 27-36: close the ref'd WebSocket
and null the ref; clear the ref'd interval and null the ref. Channels or
timers whose ref was previously overwritten are not touched. -/
def orchCleanup (s : OrchState) : OrchState :=
  let s1 :=
    match s.wsRef with
    | some i =>
        { s with
          channels := listModify (fun c => { c with closedLocally := true }) i s.channels
          wsRef := none }
    | none => s
  match s1.pollIntervalRef with
  | some k =>
      { s1 with
        timers := listModify (fun t => { t with cleared := true }) k s1.timers
        pollIntervalRef := none }
  | none => s1

/-- startStatusPolling, PDFUploaderContainer.tsx lines 39-80: registers a new
3000 ms interval polling the given job and overwrites pollIntervalRef without
clearing any previously registered interval. No status request is issued at
registration time; requests are issued only by interval ticks. -/
def startStatusPolling (jobId docId : String) (s : OrchState) : OrchState :=
  { s with
    timers := s.timers ++ [{ jobId := jobId, docId := docId, cleared := false }]
    pollIntervalRef := some s.timers.length }

/-- The events the browser event loop can deliver to the container. -/
inductive OrchEvent
| uploadSuccess (docId : String)
| effectRun
| startResolved (i : Nat) (jobId : String)
| wsProgress (ch : Nat) (pct : Nat) (stage : String) (pp tp : Nat)
| wsStatus (ch : Nat) (status : String)
| wsError (ch : Nat)
| wsClose (ch : Nat) (code : Nat)
| pollTick (t : Nat)
| pollResolved (i : Nat) (res : PollReqResult)
deriving DecidableEq

/-- One step of usePDFUploaderContainer, one handler per event:
  * uploadSuccess — the upload mutation's onSuccess (lines 169-196);
  * effectRun — the processing effect body up to its await (lines 83-161),
    guarded by uploadedDocumentId being set and currentJobId being null;
  * startResolved — resumption of that effect when startAsyncProcessing
    resolves: set currentJobId, emit the 5 percent update, open the socket;
  * wsProgress / wsStatus / wsError — the three callbacks wired into
    createProgressWebSocket (lines 102-145);
  * wsClose — the onclose handler of createProgressWebSocket
    (src/unnamed/part_003 lines 341-346): any code other than 1000 is
    reported through onError, which falls back to startStatusPolling;
  * pollTick — a poll interval callback issuing a status request;
  * pollResolved — that request resolving, running lines 43-75. -/
def orchStep (s : OrchState) (e : OrchEvent) : OrchState :=
  match e with
  | OrchEvent.uploadSuccess docId =>
      { s with
        uploadedDocumentId := some docId
        successToasts := s.successToasts ++ ["Document uploaded successfully!"] }
  | OrchEvent.effectRun =>
      match s.uploadedDocumentId, s.currentJobId with
      | some d, none =>
          { s with startRequests := s.startRequests ++ [{ docId := d, resolved := false }] }
      | _, _ => s
  | OrchEvent.startResolved i jobId =>
      match s.startRequests.get? i with
      | some req =>
          if req.resolved then s
          else
            { s with
              startRequests :=
                listModify (fun r => { r with resolved := true }) i s.startRequests
              currentJobId := some jobId
              progressUpdates := s.progressUpdates ++
                [{ percentage := 5, status := "processing",
                   message := some "Processing started in background..." }]
              channels := s.channels ++
                [{ jobId := jobId, docId := req.docId,
                   closedLocally := false, closeEventFired := false }]
              wsRef := some s.channels.length }
      | none => s
  | OrchEvent.wsProgress ch pct stage pp tp =>
      match s.channels.get? ch with
      | some c =>
          if c.closedLocally || c.closeEventFired then s
          else
            { s with
              progressUpdates := s.progressUpdates ++
                [{ percentage := pct, status := "processing",
                   message := some (stage ++ " - " ++ toString pp ++ "/" ++
                     toString tp ++ " pages") }] }
      | none => s
  | OrchEvent.wsStatus ch status =>
      match s.channels.get? ch with
      | some c =>
          if c.closedLocally || c.closeEventFired then s
          else if status = "completed" then
            let s1 :=
              { s with
                progressUpdates := s.progressUpdates ++
                  [{ percentage := 100, status := "complete",
                     message := some "Processing completed successfully!" }]
                successToasts := s.successToasts ++
                  ["Document processed successfully!"] }
            { orchCleanup s1 with currentJobId := none }
          else if status = "failed" then
            let s1 :=
              { s with
                progressUpdates := s.progressUpdates ++
                  [{ percentage := 0, status := "error",
                     message := some "Processing failed" }]
                errorToasts := s.errorToasts ++ ["Document processing failed"] }
            { orchCleanup s1 with currentJobId := none }
          else s
      | none => s
  | OrchEvent.wsError ch =>
      match s.channels.get? ch with
      | some c =>
          if c.closedLocally || c.closeEventFired then s
          else startStatusPolling c.jobId c.docId s
      | none => s
  | OrchEvent.wsClose ch code =>
      match s.channels.get? ch with
      | some c =>
          if c.closeEventFired then s
          else
            let s1 :=
              { s with
                channels :=
                  listModify (fun d => { d with closeEventFired := true }) ch s.channels }
            if code ≠ 1000 then startStatusPolling c.jobId c.docId s1 else s1
      | none => s
  | OrchEvent.pollTick t =>
      match s.timers.get? t with
      | some tm =>
          if tm.cleared then s
          else
            { s with
              pollRequests := s.pollRequests ++
                [{ jobId := tm.jobId, docId := tm.docId, resolved := false }] }
      | none => s
  | OrchEvent.pollResolved i res =>
      match s.pollRequests.get? i with
      | some req =>
          if req.resolved then s
          else
            let s0 :=
              { s with
                pollRequests :=
                  listModify (fun r => { r with resolved := true }) i s.pollRequests }
            match res with
            | PollReqResult.err => s0
            | PollReqResult.ok payload =>
                let s1 :=
                  match payload.progress with
                  | some (pct, stage, pp, tp) =>
                      { s0 with
                        progressUpdates := s0.progressUpdates ++
                          [{ percentage := pct, status := "processing",
                             message := some (stage ++ " - " ++ toString pp ++
                               "/" ++ toString tp ++ " pages") }] }
                  | none => s0
                if payload.status = "completed" then
                  let s2 :=
                    { s1 with
                      progressUpdates := s1.progressUpdates ++
                        [{ percentage := 100, status := "complete",
                           message := some "Processing completed successfully!" }]
                      successToasts := s1.successToasts ++
                        ["Document processed successfully!"] }
                  { orchCleanup s2 with currentJobId := none }
                else if payload.status = "failed" then
                  let s2 :=
                    { s1 with
                      progressUpdates := s1.progressUpdates ++
                        [{ percentage := 0, status := "error",
                           message := some (payload.error_message.getD "Processing failed") }]
                      errorToasts := s1.errorToasts ++
                        [payload.error_message.getD "Document processing failed"] }
                  { orchCleanup s2 with currentJobId := none }
                else s1
      | none => s

/-- A run of the container under an environment-chosen event sequence. -/
def orchRun (events : List OrchEvent) : OrchState :=
  events.foldl orchStep initialOrchState

/-- Terminal notifications delivered to the caller: onUploadProgress calls
whose status is 'complete' or 'error'. -/
def terminalNotifications (s : OrchState) : Nat :=
  (s.progressUpdates.filter
    (fun u => u.status == "complete" || u.status == "error")).length

/-- An interleaving in which the Progress Channel and the Poller both report
terminal backend status 'completed' for job1: the upload succeeds, processing
starts, the channel reports 'completed' (first terminal handler runs cleanup),
the channel's own close event arrives with close code 1005 (the code a
locally initiated close without an explicit status produces) so the onclose
handler treats it as an error and falls back to startStatusPolling for job1,
the interval ticks, and the issued poll resolves with 'completed'. -/
def channelPollerRaceTrace : List OrchEvent :=
  [OrchEvent.uploadSuccess "doc1", OrchEvent.effectRun,
   OrchEvent.startResolved 0 "job1",
   OrchEvent.wsStatus 0 "completed",
   OrchEvent.wsClose 0 1005,
   OrchEvent.pollTick 0,
   OrchEvent.pollResolved 0 (PollReqResult.ok
     { status := "completed", error_message := none, progress := none })]

/-- C3: the claim asserts that when the Channel and the Poller both report a
terminal status for the same job, exactly one terminal notification and
exactly one cache-invalidation request are produced and later events are
ignored. On channelPollerRaceTrace the container instead notifies the caller
of a terminal state twice (two 'complete' progress callbacks and two success
toasts) and issues no cache-invalidation request at all: the poll handler has
no guard recognising that the job already reached a terminal state. -/
theorem C3_duplicate_terminal_effects :
    (orchRun channelPollerRaceTrace).successToasts =
      ["Document uploaded successfully!", "Document processed successfully!",
       "Document processed successfully!"] ∧
    terminalNotifications (orchRun channelPollerRaceTrace) = 2 ∧
    (orchRun channelPollerRaceTrace).cacheInvalidations = [] := by
  decide

/-- The prior job's terminal transition: channel reports 'completed', the
terminal handler runs cleanup (teardown of channel and poller). -/
def teardownTrace : List OrchEvent :=
  [OrchEvent.uploadSuccess "doc1", OrchEvent.effectRun,
   OrchEvent.startResolved 0 "job1", OrchEvent.wsStatus 0 "completed"]

/-- teardownTrace continued: the closed socket's close event arrives with
code 1005, the onclose handler reports an error, the container falls back to
polling the already-finished job, and the new interval ticks once. -/
def orphanPollTrace : List OrchEvent :=
  teardownTrace ++ [OrchEvent.wsClose 0 1005, OrchEvent.pollTick 0]

/-- A new upload (doc2) arriving while the prior job (job1 for doc1) is
still non-terminal. -/
def staleChannelTrace : List OrchEvent :=
  [OrchEvent.uploadSuccess "doc1", OrchEvent.effectRun,
   OrchEvent.startResolved 0 "job1", OrchEvent.uploadSuccess "doc2"]

/-- C4: the claim asserts that after teardown no further poll request
referencing the old job identifier is ever issued, and that a new upload
tears the prior job's channel down. On teardownTrace the teardown completes
(both refs null, no poll request ever issued), yet on orphanPollTrace —
an extension by the torn-down socket's own close event (code 1005) and one
interval tick — the container issues a poll request referencing old job1.
And on staleChannelTrace the new upload leaves the prior job's channel open
(closedLocally false) and the prior job still tracked. -/
theorem C4_orphan_poll_after_teardown :
    ((orchRun teardownTrace).wsRef = none ∧
      (orchRun teardownTrace).pollIntervalRef = none ∧
      (orchRun teardownTrace).pollRequests = []) ∧
    (orchRun orphanPollTrace).pollRequests =
      [{ jobId := "job1", docId := "doc1", resolved := false }] ∧
    ((orchRun staleChannelTrace).channels =
      [{ jobId := "job1", docId := "doc1",
         closedLocally := false, closeEventFired := false }] ∧
      (orchRun staleChannelTrace).currentJobId = some "job1") := by
  decide

/-- window.setInterval semantics: the k-th callback invocation (0-indexed)
occurs (k + 1) * intervalMs after registration; nothing runs at
registration time. -/
def setIntervalFireTime (intervalMs k : Nat) : Nat :=
  (k + 1) * intervalMs

/-- Issue time of the k-th status request of startStatusPolling
(PDFUploaderContainer.tsx lines 39-80), measured from the start of polling:
the only request is inside the setInterval(3000) callback. -/
def startStatusPollingRequestTime (k : Nat) : Nat :=
  setIntervalFireTime 3000 k

/-- Issue time of the k-th request of usePolling
(src/src/hooks/useApi.ts lines 255-266): the effect performs an immediate
initial execute at time 0, then registers setInterval(interval). -/
def usePollingRequestTime (intervalMs k : Nat) : Nat :=
  match k with
  | 0 => 0
  | Nat.succ j => setIntervalFireTime intervalMs j

/-- C7 counterexample: the claim asserts that every start of polling,
including the fallback transition after a channel error, issues its first
status request immediately; but startStatusPolling — precisely the fallback
poller — issues its first request only one full 3000 ms interval after
polling starts. -/
theorem C7_counterexample :
    startStatusPollingRequestTime 0 = 3000 ∧ (3000 : Nat) ≠ 0 := by
  decide

/-- C7 (amended): usePolling issues its first request immediately (time 0)
and subsequent requests every intervalMs; the WebSocket-fallback poller
startStatusPolling instead issues no request when the fallback transition is
handled (neither the onerror nor the onclose handler adds a poll request —
only a later interval tick does) and its k-th request goes out
(k + 1) * 3000 ms after polling starts. -/
theorem C7_first_poll_timing :
    (∀ intervalMs : Nat, usePollingRequestTime intervalMs 0 = 0) ∧
    (∀ intervalMs k : Nat,
      usePollingRequestTime intervalMs (k + 1) = (k + 1) * intervalMs) ∧
    (∀ k : Nat, startStatusPollingRequestTime k = (k + 1) * 3000) ∧
    (∀ (s : OrchState) (ch : Nat),
      (orchStep s (OrchEvent.wsError ch)).pollRequests = s.pollRequests) ∧
    (∀ (s : OrchState) (ch code : Nat),
      (orchStep s (OrchEvent.wsClose ch code)).pollRequests = s.pollRequests) := by
  refine ⟨fun _ => rfl, fun _ _ => rfl, fun _ => rfl, ?_, ?_⟩
  · intro s ch
    cases h : s.channels[ch]? with
    | none => simp [orchStep, h]
    | some c =>
        by_cases hc : c.closedLocally = true ∨ c.closeEventFired = true <;>
          simp [orchStep, h, hc, startStatusPolling]
  · intro s ch code
    cases h : s.channels[ch]? with
    | none => simp [orchStep, h]
    | some c =>
        by_cases hc : c.closeEventFired
        · simp [orchStep, h, hc]
        · by_cases hcode : code = 1000 <;>
            simp [orchStep, h, hc, hcode, startStatusPolling]

/-- The ping interval of createProgressWebSocket, src/unnamed/part_003
line 317: a fixed 30000 ms, set in onopen. -/
def keepalivePingIntervalMs : Nat := 30000

/-- A parsed inbound WebSocket message as the onmessage handler
discriminates it: a progress_update (with or without a progress field),
a job_status, a pong, any other type value, or unparseable JSON. -/
inductive WsRawMessage
| progressUpdate (hasProgress : Bool)
| jobStatus (status : String)
| pong
| otherType
| unparseable
deriving DecidableEq

/-- The transport-level events delivered to one socket created by
createProgressWebSocket: the 30000 ms ping-interval callback firing, an
inbound message, the error event, or the close event with its code. -/
inductive WsTransportEvent
| pingTimerFire
| message (m : WsRawMessage)
| errorEvent
| closeEvent (code : Nat)
deriving DecidableEq

/-- Observable behaviour of one socket client: whether the socket has
closed, how many keepalive pings were sent, and the callback invocations. -/
structure WsClientState where
  closed : Bool
  pingsSent : Nat
  onProgressCalls : Nat
  onStatusChangeCalls : List String
  onErrorCalls : List String
deriving DecidableEq

def initialWsClientState : WsClientState :=
  { closed := false, pingsSent := 0, onProgressCalls := 0,
    onStatusChangeCalls := [], onErrorCalls := [] }

/-- The handlers wired by DocumentService.createProgressWebSocket,
src/unnamed/part_003 lines 299-349: the onopen ping interval sends a ping
while the socket is open; onmessage forwards progress_update (with a
progress field) to onProgress and job_status to onStatusChange, ignores
pong and unknown type values, and only logs a parse error; onerror reports
'WebSocket connection error'; onclose reports 'WebSocket connection closed
unexpectedly' exactly when the close code differs from 1000. No handler
measures elapsed time since the last inbound message. -/
def createProgressWebSocketStep (s : WsClientState) (e : WsTransportEvent) :
    WsClientState :=
  match e with
  | WsTransportEvent.pingTimerFire =>
      if s.closed then s else { s with pingsSent := s.pingsSent + 1 }
  | WsTransportEvent.message m =>
      if s.closed then s
      else
        match m with
        | WsRawMessage.progressUpdate true =>
            { s with onProgressCalls := s.onProgressCalls + 1 }
        | WsRawMessage.progressUpdate false => s
        | WsRawMessage.jobStatus st =>
            { s with onStatusChangeCalls := s.onStatusChangeCalls ++ [st] }
        | WsRawMessage.pong => s
        | WsRawMessage.otherType => s
        | WsRawMessage.unparseable => s
  | WsTransportEvent.errorEvent =>
      { s with onErrorCalls := s.onErrorCalls ++ ["WebSocket connection error"] }
  | WsTransportEvent.closeEvent code =>
      let s1 := { s with closed := true }
      if code ≠ 1000 then
        { s1 with
          onErrorCalls := s1.onErrorCalls ++
            ["WebSocket connection closed unexpectedly"] }
      else s1

/-- A run of one socket client under a transport event sequence. -/
def wsClientRun (events : List WsTransportEvent) : WsClientState :=
  events.foldl createProgressWebSocketStep initialWsClientState

/-- The only transport events whose handler invokes onError. -/
def isWsFailureEvent : WsTransportEvent → Bool
  | WsTransportEvent.errorEvent => true
  | WsTransportEvent.closeEvent code => decide (code ≠ 1000)
  | _ => false

theorem wsFold_onError_count (events : List WsTransportEvent) :
    ∀ s : WsClientState,
      ((events.foldl createProgressWebSocketStep s).onErrorCalls).length =
        s.onErrorCalls.length + (events.filter isWsFailureEvent).length := by
  induction events with
  | nil => intro s; simp
  | cons e rest ih =>
      intro s
      rw [List.foldl_cons, List.filter_cons, ih]
      cases e with
      | pingTimerFire =>
          by_cases hc : s.closed <;>
            simp [createProgressWebSocketStep, isWsFailureEvent, hc]
      | message m =>
          by_cases hc : s.closed
          · simp [createProgressWebSocketStep, isWsFailureEvent, hc]
          · cases m with
            | progressUpdate b =>
                cases b <;>
                  simp [createProgressWebSocketStep, isWsFailureEvent, hc]
            | jobStatus st =>
                simp [createProgressWebSocketStep, isWsFailureEvent, hc]
            | pong => simp [createProgressWebSocketStep, isWsFailureEvent, hc]
            | otherType =>
                simp [createProgressWebSocketStep, isWsFailureEvent, hc]
            | unparseable =>
                simp [createProgressWebSocketStep, isWsFailureEvent, hc]
      | errorEvent =>
          simp [createProgressWebSocketStep, isWsFailureEvent]
          omega
      | closeEvent code =>
          by_cases hcode : code = 1000 <;>
            (simp [createProgressWebSocketStep, isWsFailureEvent, hcode]; try omega)

theorem wsFold_silent_pings (n : Nat) :
    ∀ p : Nat,
      (List.replicate n WsTransportEvent.pingTimerFire).foldl
          createProgressWebSocketStep
          { closed := false, pingsSent := p, onProgressCalls := 0,
            onStatusChangeCalls := [], onErrorCalls := [] } =
        { closed := false, pingsSent := p + n, onProgressCalls := 0,
          onStatusChangeCalls := [], onErrorCalls := [] } := by
  induction n with
  | zero => intro p; simp
  | succ k ih =>
      intro p
      rw [List.replicate_succ, List.foldl_cons]
      have hstep :
          createProgressWebSocketStep
              { closed := false, pingsSent := p, onProgressCalls := 0,
                onStatusChangeCalls := [], onErrorCalls := [] }
              WsTransportEvent.pingTimerFire =
            { closed := false, pingsSent := p + 1, onProgressCalls := 0,
              onStatusChangeCalls := [], onErrorCalls := [] } := rfl
      rw [hstep, ih (p + 1)]
      have : p + 1 + k = p + (k + 1) := by omega
      rw [this]

set_option maxRecDepth 4000 in
/-- C8 counterexample: the claim asserts that absence of any inbound message
for a configurable interval is treated as a liveness failure and surfaced via
onError; but a socket that stays silent for 100 consecutive ping intervals
(100 * 30000 ms) produces no onError call at all — the client just keeps
sending pings. -/
theorem C8_counterexample :
    keepalivePingIntervalMs = 30000 ∧
    (wsClientRun (List.replicate 100 WsTransportEvent.pingTimerFire)).pingsSent =
      100 ∧
    (wsClientRun (List.replicate 100 WsTransportEvent.pingTimerFire)).onErrorCalls =
      [] := by
  decide

/-- C8 (amended): the channel sends an application-level keepalive ping every
30000 ms while the socket is open, but it never monitors message absence:
onError is invoked exactly once per transport error event or close event with
code other than 1000, and for no other reason — arbitrarily long silence
produces pings and no onError call. -/
theorem C8_keepalive_without_liveness_deadline :
    (∀ events : List WsTransportEvent,
      ((wsClientRun events).onErrorCalls).length =
        (events.filter isWsFailureEvent).length) ∧
    (∀ n : Nat,
      (wsClientRun (List.replicate n WsTransportEvent.pingTimerFire)).pingsSent =
        n ∧
      (wsClientRun (List.replicate n WsTransportEvent.pingTimerFire)).onErrorCalls =
        []) := by
  constructor
  · intro events
    simpa [wsClientRun, initialWsClientState] using
      wsFold_onError_count events initialWsClientState
  · intro n
    have h := wsFold_silent_pings n 0
    constructor
    · show (wsClientRun (List.replicate n WsTransportEvent.pingTimerFire)).pingsSent = n
      rw [wsClientRun]
      show ((List.replicate n WsTransportEvent.pingTimerFire).foldl
        createProgressWebSocketStep
        { closed := false, pingsSent := 0, onProgressCalls := 0,
          onStatusChangeCalls := [], onErrorCalls := [] }).pingsSent = n
      rw [h]
      simp
    · rw [wsClientRun]
      show ((List.replicate n WsTransportEvent.pingTimerFire).foldl
        createProgressWebSocketStep
        { closed := false, pingsSent := 0, onProgressCalls := 0,
          onStatusChangeCalls := [], onErrorCalls := [] }).onErrorCalls = []
      rw [h]
